import Mathlib

/-!
Shallow embedding of the `careerflow-agent-core` natural-language chat
pipeline: the routing data contract (`NLRoute`), the manual translation
override, the three capability agents (job match, section enhance, company
research) and the orchestrator `handle_message`.

External effects (the Groq LLM, the LangChain parser, Tavily web search, the
sqlite store, Python `json.loads` and `str()` rendering) are modelled as
explicit function-valued fields of an environment record `Env`, so every
definition is a pure, executable function of the environment and its inputs.
-/

/-- JSON-like Python values, as returned by `json.loads` and produced by the
capability agent fallback dict literals. Numbers are modelled as rationals
(the only numeric literal the embedded code constructs is `0.0`). -/
inductive PyJson where
  | null : PyJson
  | bool : Bool → PyJson
  | num : Rat → PyJson
  | str : String → PyJson
  | arr : List PyJson → PyJson
  | obj : List (String × PyJson) → PyJson

/-- Embeds `agents/nl_router_agent.py`, class `NLRoute` (pydantic `BaseModel`):
how to handle a natural-language request. The pydantic model constrains only
the field types; `target_language` is `Optional[str] = None` with no
validator tying it to `translate`. -/
structure NLRoute where
  intent : String
  run_job_match : Bool := false
  run_company_research : Bool := false
  run_section_enhance : Bool := false
  translate : Bool := false
  target_language : Option String := none
deriving DecidableEq, Repr

/-- Python truthiness of an `Optional[str]`: `None` and `""` are falsy. -/
def pyTruthyOpt : Option String → Bool
  | none => false
  | some s => !(s == "")

/-- Python `a or b` for `a : Optional[str]` with a string default:
yields the default when `a` is `None` or empty. -/
def pyOrOpt (o : Option String) (dflt : String) : String :=
  match o with
  | none => dflt
  | some s => if s == "" then dflt else s

/-- Python `str.lower()` (ASCII case folding, which covers every string the
embedded code compares against). -/
def pyLower (s : String) : String := String.mk (s.data.map Char.toLower)

/-- Whether `pat` is a prefix of `l`, on character lists. -/
def charsPre : List Char → List Char → Bool
  | [], _ => true
  | _ :: _, [] => false
  | a :: as, b :: bs => a == b && charsPre as bs

/-- Whether `pat` occurs as a contiguous sublist of `l`. -/
def charsSub (pat : List Char) : List Char → Bool
  | [] => charsPre pat []
  | c :: rest => charsPre pat (c :: rest) || charsSub pat rest

/-- Python `pat in s` on strings: contiguous substring containment. -/
def hasSub (s pat : String) : Bool := charsSub pat.data s.data

/-- Helper for `pySplitlines`: accumulates the current line (reversed). -/
def pySplitlinesAux : List Char → List Char → List String
  | [], acc => if acc.isEmpty then [] else [String.mk acc.reverse]
  | '\r' :: '\n' :: rest, acc => String.mk acc.reverse :: pySplitlinesAux rest []
  | '\r' :: rest, acc => String.mk acc.reverse :: pySplitlinesAux rest []
  | '\n' :: rest, acc => String.mk acc.reverse :: pySplitlinesAux rest []
  | c :: rest, acc => pySplitlinesAux rest (c :: acc)

/-- Python `str.splitlines()` restricted to the common terminators
`\n`, `\r` and `\r\n`; a trailing terminator does not produce an empty
final line. -/
def pySplitlines (s : String) : List String := pySplitlinesAux s.data []

/-- Python `str.strip()`: remove leading and trailing whitespace
(the ASCII whitespace characters that occur in practice). -/
def pyStrip (s : String) : String :=
  String.mk (((s.data.dropWhile Char.isWhitespace).reverse.dropWhile Char.isWhitespace).reverse)

/-- Embeds `store/sqlite_store.py`: the slice of a stored resume version that
`handle_message` reads (`v.raw_text`). -/
structure StoredVersion where
  raw_text : Option String

/-- The external collaborators of the pipeline, as explicit functions:
* `routerRoute` — the LangChain/Groq LLM router chain behind
  `NLRouterAgent.route` (an arbitrary shape-conforming `NLRoute` per message);
* `llmGenerate` — `GroqClient.generate(prompt, max_tokens)`;
* `parseJson` — Python `json.loads` (stdlib): `none` models a raised
  exception, `some v` the parsed value;
* `tavilyKey` — the `TAVILY_API_KEY` environment variable;
* `tavilySearch` — the Tavily web-search HTTP call in `_search_tavily`
  (already including its own failure-to-empty-string behavior);
* `getVersion` — `Store.get_version`;
* `pyStrRouteDict`, `pyStrStructured` — Python `str()` rendering of
  `route.dict()` and of the `structured` dict inside the summary prompt. -/
structure Env where
  routerRoute : String → NLRoute
  llmGenerate : String → Nat → String
  parseJson : String → Option PyJson
  tavilyKey : Option String
  tavilySearch : String → String
  getVersion : Int → Option StoredVersion
  pyStrRouteDict : NLRoute → String
  pyStrStructured : List (String × PyJson) → String

/-- Modelled from the spec: the LangChain `PydanticOutputParser` (external to
this repository) either parses the model response into a shape-conforming
`NLRoute` or raises; `NLRouterAgent.route` returns `self.chain.invoke(...)`
unchanged. The parse outcome of the raw model response is abstracted as an
`Option NLRoute`; `Except.error` models the raised `OutputParserException`
("a non-conforming model response is a hard error at this layer"). -/
def NLRouterAgent.routeResult (parseOutcome : Option NLRoute) : Except String NLRoute :=
  match parseOutcome with
  | some r => Except.ok r
  | none => Except.error "OutputParserException"

/-- Embeds `agents/job_match_agent.py`: the f-string prompt of `JobMatchAgent.run`. -/
def jobMatchPrompt (resume_text job_description : String) : String :=
  "\nJOB_MATCH:\nYou are an expert hiring screener. Compare the resume text and the job description.\nReturn a JSON object with fields:\n- score: float (0-1) representing match\n- gaps: array of short strings listing missing skills/experience\n- suggestions: array of short actionable suggestions to improve match\n\nResume:\n\"\"\"" ++ resume_text ++ "\"\"\"\n\nJob Description:\n\"\"\"" ++ job_description ++ "\"\"\"\n\nReturn only valid JSON.\n"

/-- Embeds `JobMatchAgent.run`: ask the LLM, `json.loads` the response, and on any
parse failure return the fallback dict
`{"score": 0.0, "gaps": [], "suggestions": [resp]}`. -/
def JobMatchAgent.run (env : Env) (resume_text job_description : String) : PyJson :=
  let resp := env.llmGenerate (jobMatchPrompt resume_text job_description) 400
  match env.parseJson resp with
  | some parsed => parsed
  | none => PyJson.obj [("score", PyJson.num 0), ("gaps", PyJson.arr []), ("suggestions", PyJson.arr [PyJson.str resp])]

/-- Embeds `agents/section_enhance_agent.py`: the f-string prompt of
`SectionEnhanceAgent.run` (Python `{{`/`}}` render as literal braces). -/
def sectionEnhancePrompt (role joined : String) : String :=
  "\nSECTION_ENHANCE:\nYou are a professional resume writer. Improve the following bullet points to be action-driven,\nquantified when possible, specific to the role: " ++ role ++ ".\nReturn JSON: \x7b \"edits\": [ \x7b \"index\": int, \"before\": str, \"after\": str, \"explanation\": str \x7d ] \x7d\n\nBullets:\n" ++ joined ++ "\n\nRules:\n- Keep each improved bullet <= 35 words.\n- Use strong verbs and include metrics where possible.\n- If not enough info to infer metric, propose a plausible conservative metric and mark it in explanation.\n"

/-- Embeds `SectionEnhanceAgent.run`: join the bullets as "- ..." lines, ask the
LLM, and on parse failure wrap the raw text as `{"edits_text": resp}`. -/
def SectionEnhanceAgent.run (env : Env) (bullets : List String) (role : String) : PyJson :=
  let joined := String.intercalate "\n" (bullets.map (fun b => "- " ++ b))
  let resp := env.llmGenerate (sectionEnhancePrompt role joined) 800
  match env.parseJson resp with
  | some parsed => parsed
  | none => PyJson.obj [("edits_text", PyJson.str resp)]

/-- Python `dict.setdefault(k, v)` on a JSON-like object (appends the key at
the end when missing); identity on non-objects. -/
def pySetdefault (j : PyJson) (k : String) (v : PyJson) : PyJson :=
  match j with
  | PyJson.obj kvs => if kvs.any (fun p => p.1 == k) then PyJson.obj kvs else PyJson.obj (kvs ++ [(k, v)])
  | other => other

namespace CompanyResearchAgent

/-- Embeds `CompanyResearchAgent._search_tavily`: returns `""` without any web call
when `TAVILY_API_KEY` is unset; otherwise performs the web search (whose
snippet-joining, truncation and failure-to-"" behavior live behind
`env.tavilySearch`). -/
def searchTavily (env : Env) (query : String) : String :=
  match env.tavilyKey with
  | none => ""
  | some _ => env.tavilySearch query

/-- Embeds `CompanyResearchAgent._build_llm_prompt`, after `textwrap.dedent(...)
.strip()` (interpolated values modelled at column 0). -/
def buildLlmPrompt (company extra_context web_snippets : String) : String :=
  let web_block :=
    if web_snippets == "" then
      "[No live web snippets available. Use your general knowledge and reasonable assumptions based on the company name and context.]"
    else web_snippets
  "You are an AI assistant that researches target companies to help a user\ntailor their resume and job applications.\n\nCompany name: \"" ++ company ++ "\"\n\nUser\x27s goal / extra context (may be empty):\n" ++ (if extra_context == "" then "N/A" else extra_context) ++ "\n\nWeb research snippets (may be partial or noisy):\n" ++ web_block ++ "\n\nFrom this, produce a compact JSON object with the following keys:\n\n- \"summary\": One short paragraph (2–4 sentences) describing the company:\n  what it does, domain/industry, typical products/services.\n- \"culture\": An array of 3–7 bullet strings describing culture, values,\n  and working style. Infer from context when needed.\n- \"keywords\": An array of 10–20 strings with high-impact keywords\n  (tech stack, tools, values, focus areas) useful for tailoring a resume.\n- \"role_alignment\": A short paragraph explaining how a software / data /\n  AI / engineering profile might align with this company in general.\n\nIf you are unsure about some details, keep them generic but realistic.\nDO NOT invent obviously false facts.\n\nIMPORTANT:\n- Return ONLY valid JSON (no markdown, no comments, no backticks).\n- Make sure it\x27s a single top-level JSON object with exactly those 4 keys."

/-- The outcome of one `CompanyResearchAgent.run` call: its returned value
plus the prompts of the LLM calls and the queries of the web-search calls it
made (for stating the no-call short-circuit property). -/
structure RunOutcome where
  result : PyJson
  llmCalls : List String
  webCalls : List String

/-- Embeds `CompanyResearchAgent.run`: strip the company name; short-circuit on an
empty name; otherwise search the web (iff a Tavily key is configured), ask
the LLM, parse the answer keeping only dict results (a non-dict parse raises
and falls back like a parse failure), and `setdefault` the raw sources. -/
def run (env : Env) (company extra_context : String) : RunOutcome :=
  let company := pyStrip company
  if company == "" then
    { result := PyJson.obj [("summary", PyJson.str ""), ("culture", PyJson.arr []),
        ("keywords", PyJson.arr []), ("role_alignment", PyJson.str ""),
        ("raw_sources", PyJson.str ""), ("error", PyJson.str "No company name provided.")],
      llmCalls := [], webCalls := [] }
  else
    let query := company ++ " company overview culture products hiring tech stack values"
    let web_snippets := searchTavily env query
    let webCalls := match env.tavilyKey with | none => [] | some _ => [query]
    let prompt := buildLlmPrompt company extra_context web_snippets
    let raw_answer := env.llmGenerate prompt 900
    let result :=
      match env.parseJson raw_answer with
      | some (PyJson.obj kvs) => PyJson.obj kvs
      | _ => PyJson.obj [("summary", PyJson.str ""), ("culture", PyJson.arr []),
          ("keywords", PyJson.arr []), ("role_alignment", PyJson.str ""),
          ("raw_text", PyJson.str raw_answer)]
    let result := if web_snippets == "" then result else pySetdefault result "raw_sources" (PyJson.str web_snippets)
    { result := result, llmCalls := [prompt], webCalls := webCalls }

end CompanyResearchAgent

/-- The result dict of `NLChatOrchestrator.handle_message` (`structured` is
an insertion-ordered dict, modelled as an association list). -/
structure OrchestrationResult where
  reply : String
  agents_called : List String
  structured : List (String × PyJson)
  routing_decision : NLRoute

namespace NLChatOrchestrator

/-- Embeds `lang_map` of `_detect_manual_translation_route`, in the dict insertion
(= iteration) order. -/
def langMap : List (String × String) :=
  [("mexican spanish", "Mexican Spanish"),
   ("spanish", "Spanish"),
   ("french", "French"),
   ("german", "German"),
   ("hindi", "Hindi"),
   ("urdu", "Urdu"),
   ("japanese", "Japanese"),
   ("japan", "Japanese"),
   ("korean", "Korean"),
   ("korea", "Korean")]

/-- Embeds `NLChatOrchestrator._detect_manual_translation_route`: keyword-based
override. Lowercase the message; require the substring "translate"; take the
first `lang_map` entry whose key occurs in the message; on a hit return the
pure-translation `NLRoute`. -/
def detectManualTranslationRoute (message : String) : Option NLRoute :=
  let msg := pyLower message
  if !(hasSub msg "translate") then none
  else
    match langMap.find? (fun kv => hasSub msg kv.1) with
    | none => none
    | some kv =>
      some { intent := "translate",
             run_job_match := false,
             run_company_research := false,
             run_section_enhance := false,
             translate := true,
             target_language := some kv.2 }

/-- The resume-text loading step of `handle_message`: a falsy (missing or
zero) version id, a missing version, or a falsy `raw_text` all yield `""`. -/
def resumeTextOf (env : Env) (resume_version_id : Option Int) : String :=
  match resume_version_id with
  | none => ""
  | some vid =>
    if vid == 0 then ""
    else
      match env.getVersion vid with
      | none => ""
      | some v =>
        match v.raw_text with
        | none => ""
        | some t => t

/-- The route-resolution step of `handle_message`: the manual override takes
precedence, otherwise `self.router.route(message)`. -/
def resolveRoute (env : Env) (message : String) : NLRoute :=
  match detectManualTranslationRoute message with
  | some r => r
  | none => env.routerRoute message

/-- Embeds `pure_translation` in `handle_message`. -/
def pureTranslation (route : NLRoute) : Bool :=
  route.translate && !route.run_job_match && !route.run_company_research && !route.run_section_enhance

/-- The three capability-dispatch blocks of `handle_message`, building
`structured` and `agents_called` in source order. -/
def runCapabilities (env : Env) (route : NLRoute) (message resume_text : String)
    (role company job_description : Option String) :
    List (String × PyJson) × List String :=
  let s0 : List (String × PyJson) := []
  let a0 : List String := []
  let (s1, a1) :=
    if route.run_company_research && pyTruthyOpt company then
      (s0 ++ [("company_research", (CompanyResearchAgent.run env (company.getD "") message).result)],
       a0 ++ ["company_research"])
    else (s0, a0)
  let (s2, a2) :=
    if route.run_job_match && !(resume_text == "") then
      (s1 ++ [("job_match", JobMatchAgent.run env resume_text (pyOrOpt job_description message))],
       a1 ++ ["job_match"])
    else (s1, a1)
  let (s3, a3) :=
    if route.run_section_enhance && !(resume_text == "") then
      (s2 ++ [("section_enhance",
         SectionEnhanceAgent.run env ((pySplitlines resume_text).take 5) (pyOrOpt role "Software Engineer"))],
       a2 ++ ["section_enhance"])
    else (s2, a2)
  (s3, a3)

/-- Embeds `NLChatOrchestrator._build_summary_prompt`: the joined line list, with
Python `str()` of the route dict and of `structured` taken from the
environment. -/
def buildSummaryPrompt (env : Env) (user_message : String) (route : NLRoute)
    (structured : List (String × PyJson)) (role company : Option String) : String :=
  String.intercalate "\n"
    ["You are an AI resume assistant.",
     "User request:",
     user_message,
     "",
     "Target role (if any): " ++ pyOrOpt role "N/A",
     "Target company (if any): " ++ pyOrOpt company "N/A",
     "",
     "Routing decision (tools called):",
     env.pyStrRouteDict route,
     "",
     "Structured tool outputs (JSON-like):",
     env.pyStrStructured structured,
     "",
     "Write a concise, helpful answer to the user.",
     "",
     "If job_match data is present, clearly include:",
     "- A numeric match_score between 0 and 1.",
     "- A short explanation of what that score means.",
     "- A bullet list of skill or experience gaps.",
     "- A bullet list of concrete suggestions to improve the match.",
     "",
     "If section_enhance data is present, propose improved bullet points.",
     "Make them quantified and impact-focused where possible.",
     "",
     "If company_research is present, weave in company tone and keywords.",
     "",
     "Respond as if this were a chat assistant talking to a human, NOT raw JSON."]

/-- The dedicated translation prompt built inside `handle_message`. -/
def translationPrompt (target_language content_to_translate : String) : String :=
  "You are a professional resume translator.\nTarget language: " ++ target_language ++ ".\nTranslate the following text for that market, keeping the resume format.\nPreserve line breaks and bullet points.\nDO NOT return JSON, YAML, or any structured data.\nDO NOT add explanations, headings, or commentary.\nReturn ONLY the translated resume text.\n\n" ++ content_to_translate

/-- Embeds `NLChatOrchestrator.handle_message`: load the resume text, resolve the
route (manual override first), dispatch the requested capabilities whose
inputs are present, synthesize a reply, and — when `translate` is set with a
truthy `target_language` — replace the reply by the translation and append
the `translation:<language>` marker. -/
def handleMessage (env : Env) (message : String) (resume_version_id : Option Int)
    (role company job_description : Option String) : OrchestrationResult :=
  let resume_text := resumeTextOf env resume_version_id
  let route := resolveRoute env message
  let pure_translation := pureTranslation route
  let (structured, agents_called) :=
    runCapabilities env route message resume_text role company job_description
  let reply_text := env.llmGenerate (buildSummaryPrompt env message route structured role company) 800
  if route.translate && pyTruthyOpt route.target_language then
    let tl := route.target_language.getD ""
    let content_to_translate :=
      if pure_translation && !(resume_text == "") then resume_text else reply_text
    { reply := env.llmGenerate (translationPrompt tl content_to_translate) 1800,
      agents_called := agents_called ++ ["translation:" ++ tl],
      structured := structured,
      routing_decision := route }
  else
    { reply := reply_text,
      agents_called := agents_called,
      structured := structured,
      routing_decision := route }

end NLChatOrchestrator

/-- A concrete environment for witness theorems: the LLM always answers
"REPLY", `json.loads` always fails, no Tavily key is configured, and every
version id resolves to a six-line resume; the LLM router requests all three
capabilities. -/
def sampleEnv : Env :=
  { routerRoute := fun _ =>
      { intent := "optimize",
        run_job_match := true,
        run_company_research := true,
        run_section_enhance := true },
    llmGenerate := fun _ _ => "REPLY",
    parseJson := fun _ => none,
    tavilyKey := none,
    tavilySearch := fun _ => "",
    getVersion := fun _ => some { raw_text := some "a1\na2\na3\na4\na5\na6" },
    pyStrRouteDict := fun _ => "",
    pyStrStructured := fun _ => "" }

/-- An environment whose LLM router answers with `translate=true` but no
`target_language` — e.g. the model response
`{"intent": "translate the reply", "translate": true}` is accepted by the
pydantic `NLRoute` parser, whose `target_language` defaults to `None`. -/
def translateNoLangEnv : Env :=
  { sampleEnv with
    routerRoute := fun _ =>
      { intent := "translate the reply", translate := true, target_language := none } }

/-- An environment whose LLM router answers with `translate=false` together
with a present `target_language` — e.g. the model response
`{"intent": "chat", "translate": false, "target_language": "French"}` is
accepted by the pydantic `NLRoute` parser, which ties no validator between
the two fields. -/
def langNoTranslateEnv : Env :=
  { sampleEnv with
    routerRoute := fun _ =>
      { intent := "chat", translate := false, target_language := some "French" } }

namespace NLChatOrchestrator

/-- Normal form of the `structured` component built by `runCapabilities`:
the concatenation of three conditional singleton entries, in source order. -/
theorem runCapabilities_fst (env : Env) (route : NLRoute) (message resume_text : String)
    (role company job_description : Option String) :
    (runCapabilities env route message resume_text role company job_description).1 =
      (if route.run_company_research && pyTruthyOpt company then
        [("company_research", (CompanyResearchAgent.run env (company.getD "") message).result)]
       else []) ++
      (if route.run_job_match && !(resume_text == "") then
        [("job_match", JobMatchAgent.run env resume_text (pyOrOpt job_description message))]
       else []) ++
      (if route.run_section_enhance && !(resume_text == "") then
        [("section_enhance",
          SectionEnhanceAgent.run env ((pySplitlines resume_text).take 5) (pyOrOpt role "Software Engineer"))]
       else []) := by
  unfold runCapabilities
  cases route.run_company_research && pyTruthyOpt company <;>
    cases route.run_job_match && !(resume_text == "") <;>
      cases route.run_section_enhance && !(resume_text == "") <;> simp

/-- Normal form of the `agents_called` component built by `runCapabilities`. -/
theorem runCapabilities_snd (env : Env) (route : NLRoute) (message resume_text : String)
    (role company job_description : Option String) :
    (runCapabilities env route message resume_text role company job_description).2 =
      (if route.run_company_research && pyTruthyOpt company then ["company_research"] else []) ++
      (if route.run_job_match && !(resume_text == "") then ["job_match"] else []) ++
      (if route.run_section_enhance && !(resume_text == "") then ["section_enhance"] else []) := by
  unfold runCapabilities
  cases route.run_company_research && pyTruthyOpt company <;>
    cases route.run_job_match && !(resume_text == "") <;>
      cases route.run_section_enhance && !(resume_text == "") <;> simp

/-- Lemma: `handle_message` returns the resolved route unchanged. -/
theorem handleMessage_routing_decision (env : Env) (message : String)
    (rid : Option Int) (role company jd : Option String) :
    (handleMessage env message rid role company jd).routing_decision = resolveRoute env message := by
  cases hb : (resolveRoute env message).translate && pyTruthyOpt (resolveRoute env message).target_language <;>
    simp [handleMessage, hb]

/-- Lemma: `handle_message` returns exactly the `structured` map built by the
capability-dispatch blocks. -/
theorem handleMessage_structured (env : Env) (message : String)
    (rid : Option Int) (role company jd : Option String) :
    (handleMessage env message rid role company jd).structured =
      (runCapabilities env (resolveRoute env message) message (resumeTextOf env rid) role company jd).1 := by
  cases hb : (resolveRoute env message).translate && pyTruthyOpt (resolveRoute env message).target_language <;>
    simp [handleMessage, hb]

/-- Lemma: the `agents_called` of `handle_message` is the capability list, with the
translation marker appended exactly when the translation branch fires. -/
theorem handleMessage_agents_called (env : Env) (message : String)
    (rid : Option Int) (role company jd : Option String) :
    (handleMessage env message rid role company jd).agents_called =
      (runCapabilities env (resolveRoute env message) message (resumeTextOf env rid) role company jd).2 ++
      (if (resolveRoute env message).translate && pyTruthyOpt (resolveRoute env message).target_language then
        ["translation:" ++ (resolveRoute env message).target_language.getD ""]
       else []) := by
  cases hb : (resolveRoute env message).translate && pyTruthyOpt (resolveRoute env message).target_language <;>
    simp [handleMessage, hb]

/-- The capability labels recorded in `agents_called` are exactly the keys
of `structured`, in the same order. -/
theorem runCapabilities_keys (env : Env) (route : NLRoute) (message resume_text : String)
    (role company job_description : Option String) :
    (runCapabilities env route message resume_text role company job_description).1.map Prod.fst =
      (runCapabilities env route message resume_text role company job_description).2 := by
  rw [runCapabilities_fst, runCapabilities_snd]
  cases route.run_company_research && pyTruthyOpt company <;>
    cases route.run_job_match && !(resume_text == "") <;>
      cases route.run_section_enhance && !(resume_text == "") <;> simp

/-- No translation marker collides with the `company_research` label. -/
theorem marker_ne_company (tl : String) : ("translation:" ++ tl) ≠ "company_research" := by
  intro h
  have h2 : ("translation:" ++ tl).data = "company_research".data := congrArg String.data h
  rw [String.data_append] at h2
  have h3 : "translation:".data = ['t', 'r', 'a', 'n', 's', 'l', 'a', 't', 'i', 'o', 'n', ':'] := rfl
  rw [h3] at h2
  simp at h2

/-- No translation marker collides with the `job_match` label. -/
theorem marker_ne_job (tl : String) : ("translation:" ++ tl) ≠ "job_match" := by
  intro h
  have h2 : ("translation:" ++ tl).data = "job_match".data := congrArg String.data h
  rw [String.data_append] at h2
  have h3 : "translation:".data = ['t', 'r', 'a', 'n', 's', 'l', 'a', 't', 'i', 'o', 'n', ':'] := rfl
  rw [h3] at h2
  simp at h2

/-- No translation marker collides with the `section_enhance` label. -/
theorem marker_ne_section (tl : String) : ("translation:" ++ tl) ≠ "section_enhance" := by
  intro h
  have h2 : ("translation:" ++ tl).data = "section_enhance".data := congrArg String.data h
  rw [String.data_append] at h2
  have h3 : "translation:".data = ['t', 'r', 'a', 'n', 's', 'l', 'a', 't', 'i', 'o', 'n', ':'] := rfl
  rw [h3] at h2
  simp at h2

end NLChatOrchestrator

/-- Claim C5: `NLRouterAgent.route` either returns the parsed,
shape-conforming `NLRoute` exactly as produced by the strict output parser,
or fails hard with the parser exception; it never substitutes a default
decision (the `ok` value is precisely the parsed one) and, being total with
an `Except` result, never yields an empty or null decision. -/
theorem nlrouter_route_strict_or_error (parseOutcome : Option NLRoute) :
    (∃ r, NLRouterAgent.routeResult parseOutcome = Except.ok r ∧ parseOutcome = some r) ∨
    (parseOutcome = none ∧
      NLRouterAgent.routeResult parseOutcome = Except.error "OutputParserException") := by
  cases parseOutcome with
  | none => exact Or.inr ⟨rfl, rfl⟩
  | some r => exact Or.inl ⟨r, rfl, rfl⟩

/-- Claim C6: whenever `json.loads` fails on the job-match model response,
`JobMatchAgent.run` returns exactly the fallback dict
`{"score": 0.0, "gaps": [], "suggestions": [<raw model text>]}`; the agent
is a total function, so no parse exception escapes to the orchestrator. -/
theorem jobmatch_fallback_on_parse_failure (env : Env) (resume_text job_description : String)
    (h : env.parseJson (env.llmGenerate (jobMatchPrompt resume_text job_description) 400) = none) :
    JobMatchAgent.run env resume_text job_description =
      PyJson.obj [("score", PyJson.num 0), ("gaps", PyJson.arr []),
        ("suggestions", PyJson.arr
          [PyJson.str (env.llmGenerate (jobMatchPrompt resume_text job_description) 400)])] := by
  simp [JobMatchAgent.run, h]

/-- Witness for C6 at a concrete environment and inputs. -/
theorem jobmatch_fallback_on_parse_failure_witness :
    sampleEnv.parseJson (sampleEnv.llmGenerate (jobMatchPrompt "Python dev" "Need Java") 400) = none ∧
    JobMatchAgent.run sampleEnv "Python dev" "Need Java" =
      PyJson.obj [("score", PyJson.num 0), ("gaps", PyJson.arr []),
        ("suggestions", PyJson.arr
          [PyJson.str (sampleEnv.llmGenerate (jobMatchPrompt "Python dev" "Need Java") 400)])] :=
  ⟨rfl, jobmatch_fallback_on_parse_failure sampleEnv "Python dev" "Need Java" rfl⟩

/-- Claim C7: on an empty or whitespace-only company name,
`CompanyResearchAgent.run` short-circuits to the all-empty structure with an
explicit `error` field, making no LLM call and no web-search call. -/
theorem company_research_empty_shortcircuit (env : Env) (company extra_context : String)
    (h : pyStrip company = "") :
    CompanyResearchAgent.run env company extra_context =
      { result := PyJson.obj [("summary", PyJson.str ""), ("culture", PyJson.arr []),
          ("keywords", PyJson.arr []), ("role_alignment", PyJson.str ""),
          ("raw_sources", PyJson.str ""), ("error", PyJson.str "No company name provided.")],
        llmCalls := [], webCalls := [] } := by
  simp [CompanyResearchAgent.run, h]

/-- Witness for C7 at a whitespace-only company name. -/
theorem company_research_empty_shortcircuit_witness :
    pyStrip " \t " = "" ∧
    CompanyResearchAgent.run sampleEnv " \t " "tailor my resume" =
      { result := PyJson.obj [("summary", PyJson.str ""), ("culture", PyJson.arr []),
          ("keywords", PyJson.arr []), ("role_alignment", PyJson.str ""),
          ("raw_sources", PyJson.str ""), ("error", PyJson.str "No company name provided.")],
        llmCalls := [], webCalls := [] } :=
  ⟨by decide, company_research_empty_shortcircuit sampleEnv " \t " "tailor my resume" (by decide)⟩

/-- Claim C1: when the lowercased message contains "translate" together with
at least one recognized language alias, `handle_message` uses the
manual-override `RoutingDecision` instead of the LLM router decision
(the conclusion holds for every `env.routerRoute`): `translate` is true, the
three capability flags are false, and `target_language` is the canonical
name of the first matching alias in the `lang_map` iteration order. -/
theorem manual_translation_override_wins (env : Env) (message : String)
    (rid : Option Int) (role company jd : Option String)
    (htr : hasSub (pyLower message) "translate" = true)
    (kv : String × String) (hmem : kv ∈ NLChatOrchestrator.langMap)
    (hkv : hasSub (pyLower message) kv.1 = true) :
    ∃ r, NLChatOrchestrator.detectManualTranslationRoute message = some r ∧
      (NLChatOrchestrator.handleMessage env message rid role company jd).routing_decision = r ∧
      r.translate = true ∧
      r.run_job_match = false ∧
      r.run_company_research = false ∧
      r.run_section_enhance = false ∧
      r.target_language =
        (NLChatOrchestrator.langMap.find? (fun p => hasSub (pyLower message) p.1)).map Prod.snd := by
  have hex : (NLChatOrchestrator.langMap.find? (fun p => hasSub (pyLower message) p.1)).isSome := by
    rw [List.find?_isSome]
    exact ⟨kv, hmem, hkv⟩
  obtain ⟨kv0, hfind⟩ := Option.isSome_iff_exists.mp hex
  refine ⟨{ intent := "translate", run_job_match := false, run_company_research := false,
            run_section_enhance := false, translate := true, target_language := some kv0.2 },
          ?_, ?_, rfl, rfl, rfl, rfl, ?_⟩
  · simp [NLChatOrchestrator.detectManualTranslationRoute, htr, hfind]
  · rw [NLChatOrchestrator.handleMessage_routing_decision]
    simp [NLChatOrchestrator.resolveRoute, NLChatOrchestrator.detectManualTranslationRoute, htr, hfind]
  · simp [hfind]

/-- Witness for C1: a message naming both "mexican spanish" and (as its
substring) "spanish" resolves, under an LLM router that would request all
three capabilities, to the manual pure-translation route for
"Mexican Spanish" — the first alias in the table iteration order. -/
theorem manual_translation_override_wins_witness :
    hasSub (pyLower "translate my resume to mexican spanish") "translate" = true ∧
    ("mexican spanish", "Mexican Spanish") ∈ NLChatOrchestrator.langMap ∧
    hasSub (pyLower "translate my resume to mexican spanish") ("mexican spanish", "Mexican Spanish").1 = true ∧
    (∃ r, NLChatOrchestrator.detectManualTranslationRoute "translate my resume to mexican spanish" = some r ∧
      (NLChatOrchestrator.handleMessage sampleEnv "translate my resume to mexican spanish"
        none none none none).routing_decision = r ∧
      r.translate = true ∧
      r.run_job_match = false ∧
      r.run_company_research = false ∧
      r.run_section_enhance = false ∧
      r.target_language =
        (NLChatOrchestrator.langMap.find?
          (fun p => hasSub (pyLower "translate my resume to mexican spanish") p.1)).map Prod.snd) :=
  ⟨by decide, by decide, by decide,
   manual_translation_override_wins sampleEnv "translate my resume to mexican spanish"
     none none none none (by decide) ("mexican spanish", "Mexican Spanish") (by decide) (by decide)⟩

/-- Counterexample to claim C3: the pydantic `NLRoute` shape ties no
validator between `translate` and `target_language`, so the LLM router can
produce — and `handle_message` then carries through — a decision with
`translate=false` and `target_language` present (e.g. from the model
response whose parse is the router output of `langNoTranslateEnv`). -/
theorem routing_language_iff_counterexample :
    (NLChatOrchestrator.handleMessage langNoTranslateEnv "hi" none none none none).routing_decision.translate = false ∧
    (NLChatOrchestrator.handleMessage langNoTranslateEnv "hi" none none none none).routing_decision.target_language = some "French" := by
  exact ⟨rfl, rfl⟩

/-- Claim C3 amended: the iff holds for every `RoutingDecision` produced by
the manual override — `translate` is true and `target_language` is the
(present) canonical name of a `lang_map` entry; LLM-router decisions are
only constrained to the `NLRoute` shape, which does not enforce the iff. -/
theorem manual_override_language_invariant (message : String) (r : NLRoute)
    (h : NLChatOrchestrator.detectManualTranslationRoute message = some r) :
    r.translate = true ∧ ∃ kv, kv ∈ NLChatOrchestrator.langMap ∧ r.target_language = some kv.2 := by
  cases htr : hasSub (pyLower message) "translate" with
  | false => simp [NLChatOrchestrator.detectManualTranslationRoute, htr] at h
  | true =>
    cases hfind : NLChatOrchestrator.langMap.find? (fun kv => hasSub (pyLower message) kv.1) with
    | none => simp [NLChatOrchestrator.detectManualTranslationRoute, htr, hfind] at h
    | some kv =>
      have hr : r = { intent := "translate", run_job_match := false, run_company_research := false,
                      run_section_enhance := false, translate := true, target_language := some kv.2 } := by
        simp [NLChatOrchestrator.detectManualTranslationRoute, htr, hfind] at h
        exact h.symm
      exact ⟨by rw [hr], kv, List.mem_of_find?_eq_some hfind, by rw [hr]⟩

/-- Witness for the amended C3 at a concrete message. -/
theorem manual_override_language_invariant_witness :
    NLChatOrchestrator.detectManualTranslationRoute "translate my resume to urdu" =
      some { intent := "translate", run_job_match := false, run_company_research := false,
             run_section_enhance := false, translate := true, target_language := some "Urdu" } ∧
    ({ intent := "translate", run_job_match := false, run_company_research := false,
       run_section_enhance := false, translate := true, target_language := some "Urdu" } : NLRoute).translate = true ∧
    ∃ kv, kv ∈ NLChatOrchestrator.langMap ∧
      ({ intent := "translate", run_job_match := false, run_company_research := false,
         run_section_enhance := false, translate := true,
         target_language := some "Urdu" } : NLRoute).target_language = some kv.2 :=
  ⟨by decide,
   manual_override_language_invariant "translate my resume to urdu" _ (by decide)⟩

/-- Counterexample to claim C2 as stated: `handle_message` guards the
translation step by `route.translate and route.target_language`, so a
resolved decision with `translate=true` but no target language (which the
`NLRoute` shape admits) runs no translation step: no marker is appended
(and the reply stays the synthesized one). -/
theorem translation_step_counterexample :
    (NLChatOrchestrator.handleMessage translateNoLangEnv "hello" none none none none).routing_decision.translate = true ∧
    (NLChatOrchestrator.handleMessage translateNoLangEnv "hello" none none none none).agents_called = [] := by
  exact ⟨rfl, by decide⟩

/-- Claim C2 amended: whenever the resolved `RoutingDecision` has
`translate` true AND a truthy (present, non-empty) `target_language`, the
translation step runs: the source is the raw resume text when
`pure_translation` holds and the resume text is non-empty, otherwise the
synthesized reply; the translation output entirely replaces the reply; and
`"translation:<target_language>"` is appended (last) to `agents_called`. -/
theorem translation_replaces_reply (env : Env) (message : String)
    (rid : Option Int) (role company jd : Option String) (tl : String)
    (h1 : (NLChatOrchestrator.resolveRoute env message).translate = true)
    (h2 : (NLChatOrchestrator.resolveRoute env message).target_language = some tl)
    (h3 : tl ≠ "") :
    (NLChatOrchestrator.handleMessage env message rid role company jd).reply =
      env.llmGenerate
        (NLChatOrchestrator.translationPrompt tl
          (if NLChatOrchestrator.pureTranslation (NLChatOrchestrator.resolveRoute env message)
              && !(NLChatOrchestrator.resumeTextOf env rid == "") then
            NLChatOrchestrator.resumeTextOf env rid
          else
            env.llmGenerate
              (NLChatOrchestrator.buildSummaryPrompt env message (NLChatOrchestrator.resolveRoute env message)
                (NLChatOrchestrator.runCapabilities env (NLChatOrchestrator.resolveRoute env message)
                  message (NLChatOrchestrator.resumeTextOf env rid) role company jd).1 role company)
              800))
        1800 ∧
    (NLChatOrchestrator.handleMessage env message rid role company jd).agents_called =
      (NLChatOrchestrator.runCapabilities env (NLChatOrchestrator.resolveRoute env message)
        message (NLChatOrchestrator.resumeTextOf env rid) role company jd).2 ++ ["translation:" ++ tl] := by
  have hb : ((NLChatOrchestrator.resolveRoute env message).translate
      && pyTruthyOpt (NLChatOrchestrator.resolveRoute env message).target_language) = true := by
    rw [h1, h2]
    simp [pyTruthyOpt, h3]
  have hget : (NLChatOrchestrator.resolveRoute env message).target_language.getD "" = tl := by
    rw [h2]; rfl
  constructor
  · simp [NLChatOrchestrator.handleMessage, hb, hget]
  · simp [NLChatOrchestrator.handleMessage, hb, hget]

/-- Witness for the amended C2: a pure-translation message with a stored
resume; the reply is the translation of the raw resume text and the marker
is the sole entry of `agents_called`. -/
theorem translation_replaces_reply_witness :
    (NLChatOrchestrator.resolveRoute sampleEnv "translate my resume to french").translate = true ∧
    (NLChatOrchestrator.resolveRoute sampleEnv "translate my resume to french").target_language = some "French" ∧
    "French" ≠ "" ∧
    ((NLChatOrchestrator.handleMessage sampleEnv "translate my resume to french" (some 1) none none none).reply =
      sampleEnv.llmGenerate
        (NLChatOrchestrator.translationPrompt "French"
          (if NLChatOrchestrator.pureTranslation (NLChatOrchestrator.resolveRoute sampleEnv "translate my resume to french")
              && !(NLChatOrchestrator.resumeTextOf sampleEnv (some 1) == "") then
            NLChatOrchestrator.resumeTextOf sampleEnv (some 1)
          else
            sampleEnv.llmGenerate
              (NLChatOrchestrator.buildSummaryPrompt sampleEnv "translate my resume to french"
                (NLChatOrchestrator.resolveRoute sampleEnv "translate my resume to french")
                (NLChatOrchestrator.runCapabilities sampleEnv
                  (NLChatOrchestrator.resolveRoute sampleEnv "translate my resume to french")
                  "translate my resume to french" (NLChatOrchestrator.resumeTextOf sampleEnv (some 1)) none none none).1 none none)
              800))
        1800 ∧
    (NLChatOrchestrator.handleMessage sampleEnv "translate my resume to french" (some 1) none none none).agents_called =
      (NLChatOrchestrator.runCapabilities sampleEnv
        (NLChatOrchestrator.resolveRoute sampleEnv "translate my resume to french")
        "translate my resume to french" (NLChatOrchestrator.resumeTextOf sampleEnv (some 1)) none none none).2 ++
        ["translation:" ++ "French"]) :=
  ⟨by decide, by decide, by decide,
   translation_replaces_reply sampleEnv "translate my resume to french" (some 1) none none none "French"
     (by decide) (by decide) (by decide)⟩

/-- Claim C4: a requested capability whose required input is absent (no
truthy company for `company_research`; empty resume text for `job_match` /
`section_enhance`) is silently skipped — its key is absent from `structured`
and its label absent from `agents_called` — while each capability appears
exactly when its flag is set and its input is present (`handle_message` is a
total function, so nothing raises). -/
theorem missing_input_capability_skipped (env : Env) (message : String)
    (rid : Option Int) (role company jd : Option String) :
    ("company_research" ∈ (NLChatOrchestrator.handleMessage env message rid role company jd).structured.map Prod.fst ↔
      ((NLChatOrchestrator.resolveRoute env message).run_company_research && pyTruthyOpt company) = true) ∧
    ("company_research" ∈ (NLChatOrchestrator.handleMessage env message rid role company jd).agents_called ↔
      ((NLChatOrchestrator.resolveRoute env message).run_company_research && pyTruthyOpt company) = true) ∧
    ("job_match" ∈ (NLChatOrchestrator.handleMessage env message rid role company jd).structured.map Prod.fst ↔
      ((NLChatOrchestrator.resolveRoute env message).run_job_match &&
        !(NLChatOrchestrator.resumeTextOf env rid == "")) = true) ∧
    ("job_match" ∈ (NLChatOrchestrator.handleMessage env message rid role company jd).agents_called ↔
      ((NLChatOrchestrator.resolveRoute env message).run_job_match &&
        !(NLChatOrchestrator.resumeTextOf env rid == "")) = true) ∧
    ("section_enhance" ∈ (NLChatOrchestrator.handleMessage env message rid role company jd).structured.map Prod.fst ↔
      ((NLChatOrchestrator.resolveRoute env message).run_section_enhance &&
        !(NLChatOrchestrator.resumeTextOf env rid == "")) = true) ∧
    ("section_enhance" ∈ (NLChatOrchestrator.handleMessage env message rid role company jd).agents_called ↔
      ((NLChatOrchestrator.resolveRoute env message).run_section_enhance &&
        !(NLChatOrchestrator.resumeTextOf env rid == "")) = true) := by
  have m1 := NLChatOrchestrator.marker_ne_company
    ((NLChatOrchestrator.resolveRoute env message).target_language.getD "")
  have m2 := NLChatOrchestrator.marker_ne_job
    ((NLChatOrchestrator.resolveRoute env message).target_language.getD "")
  have m3 := NLChatOrchestrator.marker_ne_section
    ((NLChatOrchestrator.resolveRoute env message).target_language.getD "")
  have m1s : "company_research" ≠
      "translation:" ++ (NLChatOrchestrator.resolveRoute env message).target_language.getD "" :=
    fun h => m1 h.symm
  have m2s : "job_match" ≠
      "translation:" ++ (NLChatOrchestrator.resolveRoute env message).target_language.getD "" :=
    fun h => m2 h.symm
  have m3s : "section_enhance" ≠
      "translation:" ++ (NLChatOrchestrator.resolveRoute env message).target_language.getD "" :=
    fun h => m3 h.symm
  rw [NLChatOrchestrator.handleMessage_structured, NLChatOrchestrator.handleMessage_agents_called,
      NLChatOrchestrator.runCapabilities_fst, NLChatOrchestrator.runCapabilities_snd]
  cases hc : (NLChatOrchestrator.resolveRoute env message).run_company_research && pyTruthyOpt company <;>
    cases hj : (NLChatOrchestrator.resolveRoute env message).run_job_match &&
        !(NLChatOrchestrator.resumeTextOf env rid == "") <;>
      cases hs : (NLChatOrchestrator.resolveRoute env message).run_section_enhance &&
          !(NLChatOrchestrator.resumeTextOf env rid == "") <;>
        cases ht : (NLChatOrchestrator.resolveRoute env message).translate &&
            pyTruthyOpt (NLChatOrchestrator.resolveRoute env message).target_language <;>
          simp_all

/-- Claim C8: when `run_job_match` is true and resume text is present but
`job_description` is absent or empty (Python-falsy), `handle_message` still
runs the job-match agent, passing the raw user message as the
job-description input (`jd_text = job_description or message`). -/
theorem jobmatch_falls_back_to_message (env : Env) (message : String)
    (rid : Option Int) (role company jd : Option String)
    (h1 : (NLChatOrchestrator.resolveRoute env message).run_job_match = true)
    (h2 : NLChatOrchestrator.resumeTextOf env rid ≠ "")
    (h3 : jd = none ∨ jd = some "") :
    ("job_match", JobMatchAgent.run env (NLChatOrchestrator.resumeTextOf env rid) message) ∈
      (NLChatOrchestrator.handleMessage env message rid role company jd).structured := by
  rw [NLChatOrchestrator.handleMessage_structured, NLChatOrchestrator.runCapabilities_fst]
  have hor : pyOrOpt jd message = message := by
    rcases h3 with h | h <;> simp [pyOrOpt, h]
  have hcond : ((NLChatOrchestrator.resolveRoute env message).run_job_match &&
      !(NLChatOrchestrator.resumeTextOf env rid == "")) = true := by
    simp [h1, h2]
  simp [hcond, hor]

/-- Witness for C8: the router requests job match, version 1 supplies the
resume, and no job description is given. -/
theorem jobmatch_falls_back_to_message_witness :
    (NLChatOrchestrator.resolveRoute sampleEnv "optimize my resume for this posting").run_job_match = true ∧
    NLChatOrchestrator.resumeTextOf sampleEnv (some 1) ≠ "" ∧
    ((none : Option String) = none ∨ (none : Option String) = some "") ∧
    ("job_match",
      JobMatchAgent.run sampleEnv (NLChatOrchestrator.resumeTextOf sampleEnv (some 1))
        "optimize my resume for this posting") ∈
      (NLChatOrchestrator.handleMessage sampleEnv "optimize my resume for this posting"
        (some 1) none none none).structured :=
  ⟨by decide, by decide, Or.inl rfl,
   jobmatch_falls_back_to_message sampleEnv "optimize my resume for this posting"
     (some 1) none none none (by decide) (by decide) (Or.inl rfl)⟩

/-- Claim C9: when section enhancement runs, the agent receives exactly the
first-at-most-5 lines of the resume text as bullets (never more than 5
lines), and the role defaults to "Software Engineer" when none is given
(`role or "Software Engineer"`). -/
theorem section_enhance_first_five_lines (env : Env) (message : String)
    (rid : Option Int) (role company jd : Option String)
    (h1 : (NLChatOrchestrator.resolveRoute env message).run_section_enhance = true)
    (h2 : NLChatOrchestrator.resumeTextOf env rid ≠ "") :
    ("section_enhance",
      SectionEnhanceAgent.run env
        ((pySplitlines (NLChatOrchestrator.resumeTextOf env rid)).take 5)
        (pyOrOpt role "Software Engineer")) ∈
      (NLChatOrchestrator.handleMessage env message rid role company jd).structured ∧
    ((pySplitlines (NLChatOrchestrator.resumeTextOf env rid)).take 5).length ≤ 5 ∧
    (role = none → pyOrOpt role "Software Engineer" = "Software Engineer") := by
  refine ⟨?_, ?_, fun h => by rw [h]; rfl⟩
  · rw [NLChatOrchestrator.handleMessage_structured, NLChatOrchestrator.runCapabilities_fst]
    have hcond : ((NLChatOrchestrator.resolveRoute env message).run_section_enhance &&
        !(NLChatOrchestrator.resumeTextOf env rid == "")) = true := by
      simp [h1, h2]
    simp [hcond]
  · simp [List.length_take]

/-- Witness for C9: a six-line resume is cut to its first five lines and the
missing role becomes "Software Engineer". -/
theorem section_enhance_first_five_lines_witness :
    (NLChatOrchestrator.resolveRoute sampleEnv "improve my bullet points").run_section_enhance = true ∧
    NLChatOrchestrator.resumeTextOf sampleEnv (some 1) ≠ "" ∧
    (("section_enhance",
      SectionEnhanceAgent.run sampleEnv
        ((pySplitlines (NLChatOrchestrator.resumeTextOf sampleEnv (some 1))).take 5)
        (pyOrOpt none "Software Engineer")) ∈
      (NLChatOrchestrator.handleMessage sampleEnv "improve my bullet points"
        (some 1) none none none).structured ∧
    ((pySplitlines (NLChatOrchestrator.resumeTextOf sampleEnv (some 1))).take 5).length ≤ 5 ∧
    ((none : Option String) = none → pyOrOpt none "Software Engineer" = "Software Engineer")) :=
  ⟨by decide, by decide,
   section_enhance_first_five_lines sampleEnv "improve my bullet points"
     (some 1) none none none (by decide) (by decide)⟩

/-- Claim C10: `agents_called` always lists the capability labels in the
fixed order `company_research`, `job_match`, `section_enhance` (restricted
to those that ran), with the translation marker — if any — strictly last,
and the keys of `structured`, in order, are exactly `agents_called` with the
translation marker removed. -/
theorem agents_called_order_and_keys (env : Env) (message : String)
    (rid : Option Int) (role company jd : Option String) :
    ∃ (b1 b2 b3 : Bool) (tail : List String),
      (NLChatOrchestrator.handleMessage env message rid role company jd).structured.map Prod.fst =
        (if b1 then ["company_research"] else []) ++
        (if b2 then ["job_match"] else []) ++
        (if b3 then ["section_enhance"] else []) ∧
      (NLChatOrchestrator.handleMessage env message rid role company jd).agents_called =
        (NLChatOrchestrator.handleMessage env message rid role company jd).structured.map Prod.fst ++ tail ∧
      (tail = [] ∨ ∃ tl, tail = ["translation:" ++ tl]) := by
  refine ⟨(NLChatOrchestrator.resolveRoute env message).run_company_research && pyTruthyOpt company,
          (NLChatOrchestrator.resolveRoute env message).run_job_match &&
            !(NLChatOrchestrator.resumeTextOf env rid == ""),
          (NLChatOrchestrator.resolveRoute env message).run_section_enhance &&
            !(NLChatOrchestrator.resumeTextOf env rid == ""),
          (if (NLChatOrchestrator.resolveRoute env message).translate &&
              pyTruthyOpt (NLChatOrchestrator.resolveRoute env message).target_language then
            ["translation:" ++ (NLChatOrchestrator.resolveRoute env message).target_language.getD ""]
          else []), ?_, ?_, ?_⟩
  · rw [NLChatOrchestrator.handleMessage_structured, NLChatOrchestrator.runCapabilities_fst]
    cases (NLChatOrchestrator.resolveRoute env message).run_company_research && pyTruthyOpt company <;>
      cases (NLChatOrchestrator.resolveRoute env message).run_job_match &&
          !(NLChatOrchestrator.resumeTextOf env rid == "") <;>
        cases (NLChatOrchestrator.resolveRoute env message).run_section_enhance &&
            !(NLChatOrchestrator.resumeTextOf env rid == "") <;> simp
  · rw [NLChatOrchestrator.handleMessage_agents_called, NLChatOrchestrator.handleMessage_structured,
        NLChatOrchestrator.runCapabilities_keys]
  · cases ht : (NLChatOrchestrator.resolveRoute env message).translate &&
        pyTruthyOpt (NLChatOrchestrator.resolveRoute env message).target_language
    · exact Or.inl (by simp)
    · exact Or.inr ⟨(NLChatOrchestrator.resolveRoute env message).target_language.getD "", by simp⟩
